import Mathlib

/-!
Shallow embedding of `scripts/setup-periphery.py`, the systemd installer for the
Komodo Periphery agent, together with proofs about its installation steps.

Strings are modelled as Lean strings; where the Python string primitives are
needed in proofs they are embedded at the character-list level (`pyLower`,
`strStartsWith`, `pySplitLines`), matching Python's per-character semantics.
The host filesystem is a map from paths to optional file contents plus a
directory-existence predicate, and every side effect the script issues is
recorded in an event trace in issuance order.
-/

/-- Python `str.lower`, applied character by character. -/
def pyLower (s : String) : String := ⟨s.data.map Char.toLower⟩

/-- Python `str.startswith`: the characters of the candidate form a prefix of the line. -/
def strStartsWith (s p : String) : Bool := p.data.isPrefixOf s.data

/-- Python `str.split("\n")`: split on the newline character, keeping empty parts. -/
def pySplitLines (s : String) : List String := (s.data.splitOn '\n').map (fun l => ⟨l⟩)

/-- Python truthiness of an optional string CLI argument: `None` and the empty string are falsy. -/
def pyTruthy : Option String → Bool
  | none => false
  | some s => s != ""

/-- Parsed CLI arguments (`parse_args`). In a real run `root_directory` and `connect_as`
carry argparse defaults (`"/etc/komodo"` and the hostname), but `map_config_line`
tests `root_directory` against `None` (line 127), so it is kept optional here;
`--force-service-file` is declared without `action="store_true"` (line 50), so it is an
optional string consumed only through Python truthiness. -/
structure Args where
  version : String
  user : Bool
  root_directory : Option String
  core_address : Option String
  connect_as : String
  onboarding_key : Option String
  force_service_file : Option String
  config_url : String
  binary_url : String
deriving DecidableEq

/-- Host environment as the script observes it: the `HOME` variable, the two systemd
probes of `uses_systemd`, `platform.machine()`, the outcome of the curl binary transfer
(`none` models a failed transfer, whose shell output redirection still creates the
destination file holding the bytes curl emitted before failing, modelled as empty),
and the text served at the config template URL. -/
structure Env where
  home_dir : String
  systemctl_on_path : Bool
  run_systemd_exists : Bool
  machine : String
  bin_fetch : Option String
  template_text : String
deriving DecidableEq

/-- Host filesystem state at the path granularity the script touches. -/
structure FS where
  files : String → Option String
  dirs : String → Bool

/-- Create or overwrite the file at `p` with content `c`. -/
def setFile (fs : FS) (p c : String) : FS :=
  { fs with files := fun q => if q = p then some c else fs.files q }

/-- Delete the file at `p` (`os.remove`). -/
def removeFile (fs : FS) (p : String) : FS :=
  { fs with files := fun q => if q = p then none else fs.files q }

/-- Create the directory at `p` (`os.makedirs`). -/
def makeDirs (fs : FS) (p : String) : FS :=
  { fs with dirs := fun q => if q = p then true else fs.dirs q }

/-- Side effects the script issues, recorded in issuance order. -/
inductive Event where
  | systemctlStop (userMode : Bool)
  | mkdirs (path : String)
  | removeFile (path : String)
  | fetchBinary (url : String)
  | writeFile (path : String) (content : String)
  | chmodExec (path : String)
  | fetchText (url : String)
  | daemonReload (userMode : Bool)
  | systemctlStart (userMode : Bool)
deriving DecidableEq, Repr

/-- `load_paths`: home directory, binary location, config location, service file location. -/
def load_paths (env : Env) (args : Args) : String × String × String × String :=
  let home_dir := env.home_dir
  if args.user then
    (home_dir, home_dir ++ "/.local/bin", home_dir ++ "/.config/komodo",
      home_dir ++ "/.config/systemd/user")
  else
    (home_dir, "/usr/local/bin", "/etc/komodo", "/etc/systemd/system")

/-- Binary-name selection inside `download_binary` (lines 110-116): lower-case the
machine string; the two ARM64 aliases select the aarch64 binary, everything else
falls back to the x86_64 binary. -/
def periphery_bin_name (machine : String) : String :=
  let arch := pyLower machine
  if arch = "aarch64" ∨ arch = "arm64" then "periphery-aarch64" else "periphery-x86_64"

/-- `download_binary`: stop the service, ensure `bin_dir` exists, delete an existing
binary, then shell out to curl with an output redirection. The redirection creates
`bin_path` and fills it with curl's output — the fetched bytes on success, whatever
curl emitted before failing otherwise (modelled as empty) — then `chmod +x`. A failed
transfer raises nothing: `os.popen` ignores the exit status and the run continues. -/
def download_binary (env : Env) (args : Args) (bin_dir : String) (fs : FS) :
    FS × List Event :=
  let evStop := [Event.systemctlStop args.user]
  let (fs1, evDir) :=
    if fs.dirs bin_dir then (fs, ([] : List Event))
    else (makeDirs fs bin_dir, [Event.mkdirs bin_dir])
  let bin_path := bin_dir ++ "/periphery"
  let (fs2, evRm) :=
    if (fs1.files bin_path).isSome then (removeFile fs1 bin_path, [Event.removeFile bin_path])
    else (fs1, [])
  let url := args.binary_url ++ "/" ++ args.version ++ "/" ++ periphery_bin_name env.machine
  let content := env.bin_fetch.getD ""
  let fs3 := setFile fs2 bin_path content
  (fs3, evStop ++ evDir ++ evRm ++
    [Event.fetchBinary url, Event.writeFile bin_path content, Event.chmodExec bin_path])

/-- Root-directory rule of `map_config_line` (lines 126-130): an explicit value wins;
with no value, user mode substitutes the home-derived default; otherwise the rule
does not fire and control falls through. -/
def map_root_directory (args : Args) (home_dir line : String) : Option String :=
  if strStartsWith line "root_directory =" then
    match args.root_directory with
    | some r => some ("root_directory = \"" ++ r ++ "\"")
    | none =>
      if args.user then some ("root_directory = \"" ++ home_dir ++ "/komodo\"") else none
  else none

/-- Core-address rule of `map_config_line` (lines 132-133): fires only when a value was supplied. -/
def map_core_address (args : Args) (line : String) : Option String :=
  if strStartsWith line "# core_address =" then
    args.core_address.map (fun c => "core_address = \"" ++ c ++ "\"")
  else none

/-- Connect-as rule of `map_config_line` (lines 135-136): always fires on a matching
line, since `args.connect_as` is never tested against `None`. -/
def map_connect_as (args : Args) (line : String) : Option String :=
  if strStartsWith line "# connect_as =" then
    some ("connect_as = \"" ++ args.connect_as ++ "\"")
  else none

/-- Onboarding-key rule of `map_config_line` (lines 138-139): fires only when a value was supplied. -/
def map_onboarding_key (args : Args) (line : String) : Option String :=
  if strStartsWith line "# onboarding_key =" then
    args.onboarding_key.map (fun k => "onboarding_key = \"" ++ k ++ "\"")
  else none

/-- `map_config_line` (lines 124-140), with Python's early returns and fall-through
rendered as an ordered chain of optional rules; a line no rule rewrites is returned
unchanged. -/
def map_config_line (args : Args) (home_dir line : String) : String :=
  match map_root_directory args home_dir line with
  | some out => out
  | none =>
    match map_core_address args line with
    | some out => out
    | none =>
      match map_connect_as args line with
      | some out => out
      | none =>
        match map_onboarding_key args line with
        | some out => out
        | none => line

/-- `write_config` (lines 142-161): early return when the config file already exists;
otherwise ensure the config directory, fetch the template, map every line, and write
the joined result. -/
def write_config (env : Env) (args : Args) (home_dir config_dir : String) (fs : FS) :
    FS × List Event :=
  let config_file := config_dir ++ "/periphery.config.toml"
  if (fs.files config_file).isSome then (fs, [])
  else
    let (fs1, evDir) :=
      if fs.dirs config_dir then (fs, ([] : List Event))
      else (makeDirs fs config_dir, [Event.mkdirs config_dir])
    let template := pySplitLines env.template_text
    let lines := template.map (map_config_line args home_dir)
    let config := String.intercalate "\n" lines
    (setFile fs1 config_file config,
      evDir ++ [Event.fetchText args.config_url, Event.writeFile config_file config])

/-- Unit-definition text composed by `write_service_file` (lines 185-197). -/
def service_file_content (home_dir bin_dir config_dir : String) : String :=
  "[Unit]\n" ++
  "Description=Agent to connect with Komodo Core\n" ++
  "\n" ++
  "[Service]\n" ++
  "Environment=\"HOME=" ++ home_dir ++ "\"\n" ++
  "ExecStart=/bin/sh -lc \"" ++ bin_dir ++ "/periphery --config-path " ++ config_dir ++
    "/periphery.config.toml\"\n" ++
  "Restart=on-failure\n" ++
  "TimeoutStartSec=0\n" ++
  "\n" ++
  "[Install]\n" ++
  "WantedBy=default.target"

/-- Creation tail of `write_service_file` (lines 178-202): ensure the service
directory, exclusively create the unit file with the composed definition, then issue
a daemon-reload. -/
def write_service_file_create (args : Args)
    (home_dir bin_dir config_dir service_dir service_file : String) (fs : FS) :
    FS × List Event :=
  let (fs1, evDir) :=
    if fs.dirs service_dir then (fs, ([] : List Event))
    else (makeDirs fs service_dir, [Event.mkdirs service_dir])
  let content := service_file_content home_dir bin_dir config_dir
  (setFile fs1 service_file content,
    evDir ++ [Event.writeFile service_file content, Event.daemonReload args.user])

/-- `write_service_file` (lines 163-202): when the unit file exists it is deleted
under a truthy force flag and recreated, otherwise the step returns early; when it
does not exist it is created. Only the creation tail issues a daemon-reload. -/
def write_service_file (args : Args) (home_dir bin_dir config_dir service_dir : String)
    (fs : FS) : FS × List Event :=
  let service_file := service_dir ++ "/periphery.service"
  match fs.files service_file with
  | some _ =>
    if pyTruthy args.force_service_file then
      let (fs2, ev) := write_service_file_create args home_dir bin_dir config_dir
        service_dir service_file (removeFile fs service_file)
      (fs2, Event.removeFile service_file :: ev)
    else (fs, [])
  | none =>
    write_service_file_create args home_dir bin_dir config_dir service_dir service_file fs

/-- `uses_systemd` (lines 204-206): systemctl on the PATH and `/run/systemd/system/` present. -/
def uses_systemd (env : Env) : Bool := env.systemctl_on_path && env.run_systemd_exists

/-- Outcome of one orchestrator run: final filesystem, issued side effects, exit code. -/
structure RunResult where
  fs : FS
  events : List Event
  exitCode : Nat

/-- `main` (lines 208-244): the systemd precondition check exits with status 1 before
any side effect; otherwise the three installation steps run in sequence followed by
the service start. Argument parsing and logging precede the check but mutate nothing. -/
def main_run (env : Env) (args : Args) (fs : FS) : RunResult :=
  if !uses_systemd env then { fs := fs, events := [], exitCode := 1 }
  else
    let (home_dir, bin_dir, config_dir, service_dir) := load_paths env args
    let (fs1, ev1) := download_binary env args bin_dir fs
    let (fs2, ev2) := write_config env args home_dir config_dir fs1
    let (fs3, ev3) := write_service_file args home_dir bin_dir config_dir service_dir fs2
    { fs := fs3, events := ev1 ++ ev2 ++ ev3 ++ [Event.systemctlStart args.user],
      exitCode := 0 }

/-!
Helper lemmas about the character-level string primitives.
-/

theorem strStartsWith_iff (s p : String) : strStartsWith s p = true ↔ p.data <+: s.data := by
  rw [strStartsWith]
  exact List.isPrefixOf_iff_prefix

theorem strStartsWith_false_of (l p q : String) (h : strStartsWith l p = true)
    (h1 : ¬ p.data <+: q.data) (h2 : ¬ q.data <+: p.data) :
    strStartsWith l q = false := by
  rw [strStartsWith_iff] at h
  rw [Bool.eq_false_iff]
  intro hq
  rw [strStartsWith_iff] at hq
  rcases List.prefix_or_prefix_of_prefix hq h with hc | hc
  · exact h2 hc
  · exact h1 hc

theorem head_append_of_ne_nil (p t : List Char) (hne : p ≠ []) :
    (p ++ t).head? = p.head? := by
  cases p with
  | nil => exact absurd rfl hne
  | cons c cs => rfl

theorem head_eq_of_strStartsWith (l p : String) (h : strStartsWith l p = true)
    (hne : p.data ≠ []) : l.data.head? = p.data.head? := by
  rw [strStartsWith_iff] at h
  rcases h with ⟨t, ht⟩
  rw [← ht]
  exact head_append_of_ne_nil p.data t hne

theorem connect_rendering_ne (v l : String) (h : strStartsWith l "# connect_as =" = true) :
    "connect_as = \"" ++ v ++ "\"" ≠ l := by
  intro he
  have h1 : l.data.head? = some '#' := by
    have hh := head_eq_of_strStartsWith l "# connect_as =" h (by decide)
    rw [hh]
    decide
  have h2 : l.data.head? = some 'c' := by
    rw [← he, String.data_append, String.data_append, List.append_assoc,
      head_append_of_ne_nil _ _ (by decide)]
    decide
  rw [h1] at h2
  exact absurd h2 (by decide)

/-- Sample CLI arguments used to instantiate theorems at concrete inputs: system mode,
no override values supplied, no force flag. -/
def sampleArgs : Args :=
  { version := "v1.2.3", user := false, root_directory := none, core_address := none,
    connect_as := "srv", onboarding_key := none, force_service_file := none,
    config_url := "https://example/config.toml", binary_url := "https://example/releases" }

/-- Empty host filesystem. -/
def emptyFS : FS := { files := fun _ => none, dirs := fun _ => false }

/-- Sample environment with systemd present and a successful binary transfer. -/
def sampleEnv : Env :=
  { home_dir := "/root", systemctl_on_path := true, run_systemd_exists := true,
    machine := "x86_64", bin_fetch := some "BIN", template_text := "" }

/-- Environment whose host has no systemctl on the PATH and no systemd init. -/
def absentEnv : Env :=
  { home_dir := "/root", systemctl_on_path := false, run_systemd_exists := false,
    machine := "x86_64", bin_fetch := some "BIN", template_text := "" }

/-- C8: binary-name selection is total — every machine string selects one of the two
binary names; the lower-cased ARM64 aliases select the aarch64 name and every other
string falls back to the x86_64 name. -/
theorem C8_arch_selection_total (machine : String) :
    (periphery_bin_name machine = "periphery-aarch64" ∨
      periphery_bin_name machine = "periphery-x86_64") ∧
    (pyLower machine = "aarch64" ∨ pyLower machine = "arm64" →
      periphery_bin_name machine = "periphery-aarch64") ∧
    (pyLower machine ≠ "aarch64" → pyLower machine ≠ "arm64" →
      periphery_bin_name machine = "periphery-x86_64") := by
  by_cases h : pyLower machine = "aarch64" ∨ pyLower machine = "arm64"
  · refine ⟨Or.inl ?_, fun _ => ?_, fun h1 h2 => ?_⟩
    · simp only [periphery_bin_name]
      rw [if_pos h]
    · simp only [periphery_bin_name]
      rw [if_pos h]
    · rcases h with h | h
      · exact absurd h h1
      · exact absurd h h2
  · refine ⟨Or.inr ?_, fun hc => absurd hc h, fun _ _ => ?_⟩
    · simp only [periphery_bin_name]
      rw [if_neg h]
    · simp only [periphery_bin_name]
      rw [if_neg h]

theorem C8_arch_selection_total_witness :
    periphery_bin_name "ARM64" = "periphery-aarch64" ∧
    periphery_bin_name "riscv64" = "periphery-x86_64" :=
  ⟨(C8_arch_selection_total "ARM64").2.1 (by decide),
   (C8_arch_selection_total "riscv64").2.2 (by decide) (by decide)⟩

/-- C9: when the supervisor probe fails, the run exits with status 1, the filesystem
is untouched, and no side effect at all is issued — in particular no binary, config,
or unit write and no stop/start/reload call. -/
theorem C9_supervisor_absent_no_mutation (env : Env) (args : Args) (fs : FS)
    (h : uses_systemd env = false) :
    (main_run env args fs).exitCode = 1 ∧
    (main_run env args fs).fs = fs ∧
    (main_run env args fs).events = [] := by
  refine ⟨?_, ?_, ?_⟩ <;> simp [main_run, h]

theorem C9_supervisor_absent_no_mutation_witness :
    (main_run absentEnv sampleArgs emptyFS).exitCode = 1 ∧
    (main_run absentEnv sampleArgs emptyFS).fs = emptyFS ∧
    (main_run absentEnv sampleArgs emptyFS).events = [] :=
  C9_supervisor_absent_no_mutation absentEnv sampleArgs emptyFS rfl

/-- Arguments with only the connect-as value supplied, in user mode: the root-directory,
core-address and onboarding-key overrides are all absent. -/
def onlyConnectUserArgs : Args := { sampleArgs with user := true }

/-- C4 (counterexample to the claim as stated): with only the connect-as value supplied
and no other override value, rendering in user mode also rewrites the root_directory
line, so not only the connect_as line changes. -/
theorem C4_only_connect_counterexample :
    onlyConnectUserArgs.root_directory = none ∧
    onlyConnectUserArgs.core_address = none ∧
    onlyConnectUserArgs.onboarding_key = none ∧
    map_config_line onlyConnectUserArgs "/home/a" "root_directory = \"/etc/komodo\"" ≠
      "root_directory = \"/etc/komodo\"" := by decide

/-- C4 (amended): in system mode (user flag unset), rendering with only the connect-as
value supplied rewrites exactly the lines carrying the connect-as directive — each
becomes the connect-as rendering, a genuine change — and every other line of the
template, the root-directory, core-address and onboarding-key directive lines
included, is returned byte-identical. -/
theorem C4_only_connect_changes_connect_line (args : Args) (home_dir : String)
    (hr : args.root_directory = none) (hc : args.core_address = none)
    (hk : args.onboarding_key = none) (hu : args.user = false) :
    ∀ l : String,
      (strStartsWith l "# connect_as =" = true →
        map_config_line args home_dir l = "connect_as = \"" ++ args.connect_as ++ "\"" ∧
        map_config_line args home_dir l ≠ l) ∧
      (strStartsWith l "# connect_as =" = false →
        map_config_line args home_dir l = l) := by
  intro l
  constructor
  · intro h
    have hout : map_config_line args home_dir l =
        "connect_as = \"" ++ args.connect_as ++ "\"" := by
      simp [map_config_line, map_root_directory, map_core_address, map_connect_as,
        map_onboarding_key, h, hr, hc, hk, hu]
    refine ⟨hout, ?_⟩
    rw [hout]
    exact connect_rendering_ne args.connect_as l h
  · intro h
    simp [map_config_line, map_root_directory, map_core_address, map_connect_as,
      map_onboarding_key, h, hr, hc, hk, hu]

theorem C4_only_connect_changes_connect_line_witness :
    map_config_line sampleArgs "/home/a" "# connect_as = \"hostname\"" =
      "connect_as = \"srv\"" ∧
    map_config_line sampleArgs "/home/a" "root_directory = \"/etc/komodo\"" =
      "root_directory = \"/etc/komodo\"" :=
  ⟨((C4_only_connect_changes_connect_line sampleArgs "/home/a" rfl rfl rfl rfl
      "# connect_as = \"hostname\"").1 (by decide)).1,
   (C4_only_connect_changes_connect_line sampleArgs "/home/a" rfl rfl rfl rfl
      "root_directory = \"/etc/komodo\"").2 (by decide)⟩

/-- C5 (counterexample to the claim as stated): the root_directory line matches a
recognized directive prefix and its caller value is absent, yet in user mode the
rendering does not return it unchanged. -/
theorem C5_unsupplied_value_counterexample :
    onlyConnectUserArgs.root_directory = none ∧
    map_config_line onlyConnectUserArgs "/home/b" "root_directory = \"/x\"" =
      "root_directory = \"/home/b/komodo\"" := by decide

/-- C5 (amended): a directive line whose caller value is absent is returned unchanged
for the core-address and onboarding-key rules, and for the root-directory rule in
system mode; in user mode the root-directory line is instead rewritten to the
home-derived default even though no value was supplied. (The connect-as rule has no
absent-value case: argparse always supplies `connect_as`, defaulting to the hostname.) -/
theorem C5_unsupplied_value_line_unchanged (args : Args) (home_dir l : String) :
    (strStartsWith l "root_directory =" = true → args.root_directory = none →
      args.user = false → map_config_line args home_dir l = l) ∧
    (strStartsWith l "# core_address =" = true → args.core_address = none →
      map_config_line args home_dir l = l) ∧
    (strStartsWith l "# onboarding_key =" = true → args.onboarding_key = none →
      map_config_line args home_dir l = l) ∧
    (strStartsWith l "root_directory =" = true → args.root_directory = none →
      args.user = true →
      map_config_line args home_dir l = "root_directory = \"" ++ home_dir ++ "/komodo\"") := by
  refine ⟨fun h hr hu => ?_, fun h hc => ?_, fun h hk => ?_, fun h hr hu => ?_⟩
  · have h1 := strStartsWith_false_of l "root_directory =" "# core_address =" h
      (by decide) (by decide)
    have h2 := strStartsWith_false_of l "root_directory =" "# connect_as =" h
      (by decide) (by decide)
    have h3 := strStartsWith_false_of l "root_directory =" "# onboarding_key =" h
      (by decide) (by decide)
    simp [map_config_line, map_root_directory, map_core_address, map_connect_as,
      map_onboarding_key, h, hr, hu, h1, h2, h3]
  · have h1 := strStartsWith_false_of l "# core_address =" "root_directory =" h
      (by decide) (by decide)
    have h2 := strStartsWith_false_of l "# core_address =" "# connect_as =" h
      (by decide) (by decide)
    have h3 := strStartsWith_false_of l "# core_address =" "# onboarding_key =" h
      (by decide) (by decide)
    simp [map_config_line, map_root_directory, map_core_address, map_connect_as,
      map_onboarding_key, h, hc, h1, h2, h3]
  · have h1 := strStartsWith_false_of l "# onboarding_key =" "root_directory =" h
      (by decide) (by decide)
    have h2 := strStartsWith_false_of l "# onboarding_key =" "# core_address =" h
      (by decide) (by decide)
    have h3 := strStartsWith_false_of l "# onboarding_key =" "# connect_as =" h
      (by decide) (by decide)
    simp [map_config_line, map_root_directory, map_core_address, map_connect_as,
      map_onboarding_key, h, hk, h1, h2, h3]
  · simp [map_config_line, map_root_directory, h, hr, hu]

theorem C5_unsupplied_value_line_unchanged_witness :
    map_config_line sampleArgs "/h" "root_directory = \"/etc/komodo\"" =
      "root_directory = \"/etc/komodo\"" ∧
    map_config_line sampleArgs "/h" "# core_address = \"url\"" =
      "# core_address = \"url\"" ∧
    map_config_line sampleArgs "/h" "# onboarding_key = \"key\"" =
      "# onboarding_key = \"key\"" ∧
    map_config_line onlyConnectUserArgs "/home/c" "root_directory = \"/x\"" =
      "root_directory = \"/home/c/komodo\"" :=
  ⟨(C5_unsupplied_value_line_unchanged sampleArgs "/h"
      "root_directory = \"/etc/komodo\"").1 (by decide) rfl rfl,
   (C5_unsupplied_value_line_unchanged sampleArgs "/h"
      "# core_address = \"url\"").2.1 (by decide) rfl,
   (C5_unsupplied_value_line_unchanged sampleArgs "/h"
      "# onboarding_key = \"key\"").2.2.1 (by decide) rfl,
   (C5_unsupplied_value_line_unchanged onlyConnectUserArgs "/home/c"
      "root_directory = \"/x\"").2.2.2 (by decide) rfl rfl⟩

/-- Skip branch of `write_config`: an existing config file makes the step a no-op. -/
theorem write_config_skip (env : Env) (args : Args) (home_dir config_dir : String)
    (fs : FS) (c : String)
    (hc : fs.files (config_dir ++ "/periphery.config.toml") = some c) :
    write_config env args home_dir config_dir fs = (fs, []) := by
  simp [write_config, hc]

/-- After `write_config` the config file is always present. -/
theorem write_config_present (env : Env) (args : Args) (home_dir config_dir : String)
    (fs : FS) :
    (((write_config env args home_dir config_dir fs).1).files
      (config_dir ++ "/periphery.config.toml")).isSome = true := by
  cases hf : fs.files (config_dir ++ "/periphery.config.toml") with
  | some c => simp [write_config, hf]
  | none =>
    by_cases hd : fs.dirs config_dir <;>
      simp [write_config, hf, hd, setFile, makeDirs]

/-- C1: an existing config file's content survives the ConfigEnsured step unchanged,
and a second run of `write_config` after a first one is a complete no-op, so the
content of the first successful write is still on disk after the second run. -/
theorem C1_config_idempotent (env : Env) (args : Args) (home_dir config_dir : String)
    (fs : FS) :
    (∀ c, fs.files (config_dir ++ "/periphery.config.toml") = some c →
      ((write_config env args home_dir config_dir fs).1).files
        (config_dir ++ "/periphery.config.toml") = some c) ∧
    write_config env args home_dir config_dir
        (write_config env args home_dir config_dir fs).1 =
      ((write_config env args home_dir config_dir fs).1, []) := by
  constructor
  · intro c hc
    rw [write_config_skip env args home_dir config_dir fs c hc]
    exact hc
  · obtain ⟨c, hc⟩ := Option.isSome_iff_exists.mp
      (write_config_present env args home_dir config_dir fs)
    exact write_config_skip env args home_dir config_dir _ c hc

/-- Filesystem that already holds a hand-edited config file. -/
def configFS : FS :=
  { files := fun q =>
      if q = "/etc/komodo/periphery.config.toml" then some "USEREDIT" else none,
    dirs := fun _ => true }

theorem C1_config_idempotent_witness :
    ((write_config sampleEnv sampleArgs "/root" "/etc/komodo" configFS).1).files
        ("/etc/komodo" ++ "/periphery.config.toml") = some "USEREDIT" ∧
    write_config sampleEnv sampleArgs "/root" "/etc/komodo"
        (write_config sampleEnv sampleArgs "/root" "/etc/komodo" emptyFS).1 =
      ((write_config sampleEnv sampleArgs "/root" "/etc/komodo" emptyFS).1, []) :=
  ⟨(C1_config_idempotent sampleEnv sampleArgs "/root" "/etc/komodo" configFS).1
      "USEREDIT" (by decide),
   (C1_config_idempotent sampleEnv sampleArgs "/root" "/etc/komodo" emptyFS).2⟩

/-- Skip branch of `write_service_file`: an existing unit file with a falsy force flag
makes the step a no-op. -/
theorem write_service_skip (args : Args)
    (home_dir bin_dir config_dir service_dir : String) (fs : FS) (s : String)
    (hs : fs.files (service_dir ++ "/periphery.service") = some s)
    (hforce : pyTruthy args.force_service_file = false) :
    write_service_file args home_dir bin_dir config_dir service_dir fs = (fs, []) := by
  simp [write_service_file, hs, hforce]

/-- Creation branch of `write_service_file`: with no unit file present, the freshly
composed definition is written. -/
theorem write_service_creates (args : Args)
    (home_dir bin_dir config_dir service_dir : String) (fs : FS)
    (hn : fs.files (service_dir ++ "/periphery.service") = none) :
    ((write_service_file args home_dir bin_dir config_dir service_dir fs).1).files
        (service_dir ++ "/periphery.service") =
      some (service_file_content home_dir bin_dir config_dir) := by
  by_cases hd : fs.dirs service_dir <;>
    simp [write_service_file, write_service_file_create, hn, hd, setFile, makeDirs]

/-- C6: without the force flag, a second run of the UnitEnsured step is a complete
no-op, so the unit file is byte-identical to its content after the first run. -/
theorem C6_unit_idempotent_no_force (args : Args)
    (home_dir bin_dir config_dir service_dir : String) (fs : FS)
    (hforce : pyTruthy args.force_service_file = false) :
    write_service_file args home_dir bin_dir config_dir service_dir
        (write_service_file args home_dir bin_dir config_dir service_dir fs).1 =
      ((write_service_file args home_dir bin_dir config_dir service_dir fs).1, []) ∧
    ((write_service_file args home_dir bin_dir config_dir service_dir
        (write_service_file args home_dir bin_dir config_dir service_dir fs).1).1).files
        (service_dir ++ "/periphery.service") =
      ((write_service_file args home_dir bin_dir config_dir service_dir fs).1).files
        (service_dir ++ "/periphery.service") := by
  have key : write_service_file args home_dir bin_dir config_dir service_dir
      (write_service_file args home_dir bin_dir config_dir service_dir fs).1 =
      ((write_service_file args home_dir bin_dir config_dir service_dir fs).1, []) := by
    cases hf : fs.files (service_dir ++ "/periphery.service") with
    | some s =>
      rw [write_service_skip args home_dir bin_dir config_dir service_dir fs s hf hforce]
      exact write_service_skip args home_dir bin_dir config_dir service_dir fs s hf hforce
    | none =>
      exact write_service_skip args home_dir bin_dir config_dir service_dir _ _
        (write_service_creates args home_dir bin_dir config_dir service_dir fs hf) hforce
  exact ⟨key, by rw [key]⟩

theorem C6_unit_idempotent_no_force_witness :
    write_service_file sampleArgs "/root" "/usr/local/bin" "/etc/komodo"
        "/etc/systemd/system"
        (write_service_file sampleArgs "/root" "/usr/local/bin" "/etc/komodo"
          "/etc/systemd/system" emptyFS).1 =
      ((write_service_file sampleArgs "/root" "/usr/local/bin" "/etc/komodo"
          "/etc/systemd/system" emptyFS).1, []) :=
  (C6_unit_idempotent_no_force sampleArgs "/root" "/usr/local/bin" "/etc/komodo"
    "/etc/systemd/system" emptyFS rfl).1

/-- C7: with a truthy force flag and a pre-existing unit file of arbitrary sentinel
content, the step's first side effect is the deletion of the old file, and the
resulting file content is exactly the freshly composed unit definition — a full
replacement that does not depend on the prior content. -/
theorem C7_force_recreate_replaces (args : Args)
    (home_dir bin_dir config_dir service_dir : String) (fs : FS) (s : String)
    (hforce : pyTruthy args.force_service_file = true)
    (hf : fs.files (service_dir ++ "/periphery.service") = some s) :
    ((write_service_file args home_dir bin_dir config_dir service_dir fs).1).files
        (service_dir ++ "/periphery.service") =
      some (service_file_content home_dir bin_dir config_dir) ∧
    ((write_service_file args home_dir bin_dir config_dir service_dir fs).2).head? =
      some (Event.removeFile (service_dir ++ "/periphery.service")) := by
  constructor <;>
    by_cases hd : fs.dirs service_dir <;>
    simp [write_service_file, write_service_file_create, hf, hforce, hd, setFile,
      removeFile, makeDirs]

/-- Arguments whose force flag is a truthy string. -/
def forceArgs : Args := { sampleArgs with force_service_file := some "true" }

/-- Filesystem that already holds a sentinel unit file. -/
def unitFS : FS :=
  { files := fun q =>
      if q = "/etc/systemd/system/periphery.service" then some "SENTINEL" else none,
    dirs := fun _ => true }

theorem C7_force_recreate_replaces_witness :
    ((write_service_file forceArgs "/root" "/usr/local/bin" "/etc/komodo"
        "/etc/systemd/system" unitFS).1).files
        ("/etc/systemd/system" ++ "/periphery.service") =
      some (service_file_content "/root" "/usr/local/bin" "/etc/komodo") ∧
    ((write_service_file forceArgs "/root" "/usr/local/bin" "/etc/komodo"
        "/etc/systemd/system" unitFS).2).head? =
      some (Event.removeFile ("/etc/systemd/system" ++ "/periphery.service")) :=
  C7_force_recreate_replaces forceArgs "/root" "/usr/local/bin" "/etc/komodo"
    "/etc/systemd/system" unitFS "SENTINEL" (by decide) (by decide)

/-- C10: the UnitEnsured step issues a daemon-reload exactly when it writes a unit
file in that run; in particular, with the file already present and no force flag the
step issues no side effect at all. -/
theorem C10_reload_iff_written (args : Args)
    (home_dir bin_dir config_dir service_dir : String) (fs : FS) :
    ((∃ c, Event.writeFile (service_dir ++ "/periphery.service") c ∈
        (write_service_file args home_dir bin_dir config_dir service_dir fs).2) ↔
      Event.daemonReload args.user ∈
        (write_service_file args home_dir bin_dir config_dir service_dir fs).2) ∧
    ((fs.files (service_dir ++ "/periphery.service")).isSome = true →
      pyTruthy args.force_service_file = false →
      (write_service_file args home_dir bin_dir config_dir service_dir fs).2 = []) := by
  constructor
  · cases hf : fs.files (service_dir ++ "/periphery.service") with
    | some s =>
      by_cases hforce : pyTruthy args.force_service_file
      · by_cases hd : fs.dirs service_dir <;>
          simp [write_service_file, write_service_file_create, hf, hforce, hd]
      · simp [write_service_file, hf, hforce]
    | none =>
      by_cases hd : fs.dirs service_dir <;>
        simp [write_service_file, write_service_file_create, hf, hd]
  · intro hs hforce
    obtain ⟨s, hf⟩ := Option.isSome_iff_exists.mp hs
    rw [write_service_skip args home_dir bin_dir config_dir service_dir fs s hf hforce]

theorem C10_reload_iff_written_witness :
    ((∃ c, Event.writeFile ("/etc/systemd/system" ++ "/periphery.service") c ∈
        (write_service_file sampleArgs "/root" "/usr/local/bin" "/etc/komodo"
          "/etc/systemd/system" unitFS).2) ↔
      Event.daemonReload sampleArgs.user ∈
        (write_service_file sampleArgs "/root" "/usr/local/bin" "/etc/komodo"
          "/etc/systemd/system" unitFS).2) ∧
    (write_service_file sampleArgs "/root" "/usr/local/bin" "/etc/komodo"
        "/etc/systemd/system" unitFS).2 = [] :=
  ⟨(C10_reload_iff_written sampleArgs "/root" "/usr/local/bin" "/etc/komodo"
      "/etc/systemd/system" unitFS).1,
   (C10_reload_iff_written sampleArgs "/root" "/usr/local/bin" "/etc/komodo"
      "/etc/systemd/system" unitFS).2 (by decide) (by decide)⟩

/-- C3: whenever a binary already exists at `{binaryDir}/periphery`, the side-effect
trace of `download_binary` issues the supervisor stop first, then the deletion of the
existing binary, then the write of the downloaded bytes; and the written file holds
exactly the transfer output — a full replacement independent of the prior content,
never an append to it. -/
theorem C3_download_binary_order (env : Env) (args : Args) (bin_dir : String) (fs : FS)
    (old : String) (hf : fs.files (bin_dir ++ "/periphery") = some old) :
    ∃ a b : List Event,
      (download_binary env args bin_dir fs).2 =
        Event.systemctlStop args.user :: a ++
          Event.removeFile (bin_dir ++ "/periphery") :: b ++
          [Event.writeFile (bin_dir ++ "/periphery") (env.bin_fetch.getD ""),
            Event.chmodExec (bin_dir ++ "/periphery")] ∧
      ((download_binary env args bin_dir fs).1).files (bin_dir ++ "/periphery") =
        some (env.bin_fetch.getD "") := by
  by_cases hd : fs.dirs bin_dir
  · refine ⟨[], [Event.fetchBinary (args.binary_url ++ "/" ++ args.version ++ "/" ++
      periphery_bin_name env.machine)], ?_, ?_⟩ <;>
      simp [download_binary, hf, hd, setFile, removeFile, makeDirs]
  · refine ⟨[Event.mkdirs bin_dir], [Event.fetchBinary (args.binary_url ++ "/" ++
      args.version ++ "/" ++ periphery_bin_name env.machine)], ?_, ?_⟩ <;>
      simp [download_binary, hf, hd, setFile, removeFile, makeDirs]

/-- Filesystem that already holds a stale binary. -/
def binFS : FS :=
  { files := fun q => if q = "/usr/local/bin/periphery" then some "OLDBIN" else none,
    dirs := fun _ => true }

theorem C3_download_binary_order_witness :
    ∃ a b : List Event,
      (download_binary sampleEnv sampleArgs "/usr/local/bin" binFS).2 =
        Event.systemctlStop sampleArgs.user :: a ++
          Event.removeFile ("/usr/local/bin" ++ "/periphery") :: b ++
          [Event.writeFile ("/usr/local/bin" ++ "/periphery") (sampleEnv.bin_fetch.getD ""),
            Event.chmodExec ("/usr/local/bin" ++ "/periphery")] ∧
      ((download_binary sampleEnv sampleArgs "/usr/local/bin" binFS).1).files
          ("/usr/local/bin" ++ "/periphery") = some (sampleEnv.bin_fetch.getD "") :=
  C3_download_binary_order sampleEnv sampleArgs "/usr/local/bin" binFS "OLDBIN" (by decide)

/-- Environment with systemd present but a failing binary transfer. -/
def failEnv : Env :=
  { home_dir := "/root", systemctl_on_path := true, run_systemd_exists := true,
    machine := "x86_64", bin_fetch := none, template_text := "" }

set_option maxRecDepth 8192 in
/-- C2 (behavior of the code at the failing input): when the curl transfer fails,
`os.popen` surfaces no error, so the run does NOT halt — it still reaches the
ConfigEnsured and UnitEnsured steps (a config write and a unit write both occur),
finishes with exit code 0, and the shell output redirection leaves a file at the
visible binary path of the binary directory. This contradicts the claimed
halt-on-failure behavior; the claim matches the documented intent, the code does not. -/
theorem C2_download_failure_run_continues :
    (main_run failEnv sampleArgs emptyFS).exitCode = 0 ∧
    Event.writeFile "/etc/komodo/periphery.config.toml" "" ∈
      (main_run failEnv sampleArgs emptyFS).events ∧
    Event.writeFile "/etc/systemd/system/periphery.service"
        (service_file_content "/root" "/usr/local/bin" "/etc/komodo") ∈
      (main_run failEnv sampleArgs emptyFS).events ∧
    (main_run failEnv sampleArgs emptyFS).fs.files "/usr/local/bin/periphery" =
      some "" := by
  decide
